import Mathlib

/-!
Verification of the lead-management dashboard's sync, CSV, filtering,
KPI, pagination and update logic, shallowly embedded from the
TypeScript sources (`services/api.ts` / `LeadsTable` component and
`pages/Dashboard.tsx`).
-/

/-- A lead record, mirroring the `Lead` shape used by the dashboard.
`id` is the store-assigned (or client temporary) identity; it is
absent (`none`) for freshly fetched feed records.  The scheduling and
customer-comment fields are optional, as they are populated only by
user actions. -/
structure Lead where
  id : Option String
  created_time : String
  platform : String
  name : String
  whatsapp_number_ : String
  lead_status : String
  comments : String
  customerComment : Option String := none
  followUpDate : Option String := none
  followUpTime : Option String := none
deriving DecidableEq, Repr

/-- Embeds `generateLeadHash` of `services/api.ts`:
the template string `${lead.whatsapp_number_}_${lead.created_time}`. -/
def generateLeadHash (lead : Lead) : String :=
  lead.whatsapp_number_ ++ "_" ++ lead.created_time

/-- Result of one run of the sheet-sync service: the final store
contents and the batch of leads persisted by this run. -/
structure SyncResult where
  store : List Lead
  created : List Lead
deriving DecidableEq, Repr

/-- The `newLeads` computation inside `syncLeadsFromSheets`
(`services/api.ts`): keep the incoming feed leads whose hash is not
contained in the set of hashes of the stored leads
(`existingHashes.has(generateLeadHash(sheetLead))`). -/
def newSheetLeads (store feed : List Lead) : List Lead :=
  feed.filter (fun sheetLead =>
    !((store.map generateLeadHash).contains (generateLeadHash sheetLead)))

/-- Embeds the store-facing core of `syncLeadsFromSheets`
(`services/api.ts`): compute the deduplicated new leads and add each
of them to the collection as an independent create (`addDoc`),
leaving all previously stored leads untouched. -/
def syncLeadsFromSheets (store feed : List Lead) : SyncResult :=
  { store := store ++ newSheetLeads store feed
    created := newSheetLeads store feed }

theorem newSheetLeads_mem_store_map (S I : List Lead) :
    ∀ i ∈ I, generateLeadHash i ∈ (syncLeadsFromSheets S I).store.map generateLeadHash := by
  intro i hi
  simp only [syncLeadsFromSheets, List.map_append, List.mem_append]
  by_cases hmem : generateLeadHash i ∈ S.map generateLeadHash
  · exact Or.inl hmem
  · right
    refine List.mem_map.mpr ⟨i, ?_, rfl⟩
    refine List.mem_filter.mpr ⟨hi, ?_⟩
    simp [List.contains, hmem]

theorem newSheetLeads_eq_nil_of_covered (T I : List Lead)
    (hT : ∀ i ∈ I, generateLeadHash i ∈ T.map generateLeadHash) :
    newSheetLeads T I = [] := by
  apply List.filter_eq_nil_iff.mpr
  intro i hi
  simp [List.contains, hT i hi]

/-- C1: sheet-sync dedup correctness.  The leads created by one sync
run are exactly the incoming leads whose natural key is absent from
the natural keys of the stored set, and the final store is the old
store (every previously stored lead unchanged, in place) followed by
exactly those created leads. -/
theorem syncLeadsFromSheets_dedup_correct (S I : List Lead) :
    (syncLeadsFromSheets S I).created
      = I.filter (fun i => decide (generateLeadHash i ∉ S.map generateLeadHash))
    ∧ (syncLeadsFromSheets S I).store = S ++ (syncLeadsFromSheets S I).created := by
  constructor
  · show newSheetLeads S I = _
    unfold newSheetLeads
    apply List.filter_congr
    intro i _
    simp only [List.contains, List.elem_eq_mem, List.mem_map, ← decide_not,
      decide_eq_decide]
  · rfl

/-- Does the character list `needle` occur at the head of `hay`?
Auxiliary to the model of JavaScript `String.prototype.includes`. -/
def strStartsWithChars : List Char → List Char → Bool
  | _, [] => true
  | [], _ :: _ => false
  | c :: cs, d :: ds => c == d && strStartsWithChars cs ds

/-- Does the character list `needle` occur contiguously anywhere in
`hay`?  Models JavaScript `hay.includes(needle)`. -/
def strIncludesChars : List Char → List Char → Bool
  | [], needle => strStartsWithChars [] needle
  | c :: cs, needle => strStartsWithChars (c :: cs) needle || strIncludesChars cs needle

/-- Model of JavaScript `hay.includes(needle)` on strings. -/
def strIncludes (hay needle : String) : Bool :=
  strIncludesChars hay.data needle.data

/-- Model of JavaScript `String.prototype.toLowerCase` (character-wise
lowering). -/
def toLowerStr (s : String) : String :=
  String.mk (s.data.map Char.toLower)

theorem underscore_split_inj (x : List Char) : ∀ (y u v : List Char),
    '_' ∉ x → '_' ∉ y → x ++ '_' :: u = y ++ '_' :: v → x = y ∧ u = v := by
  induction x with
  | nil =>
    intro y u v _ hy h
    cases y with
    | nil =>
      simpa using h
    | cons b ys =>
      simp only [List.nil_append, List.cons_append, List.cons.injEq] at h
      exact absurd (by rw [← h.1]; exact List.mem_cons_self '_' ys) hy
  | cons a xs ih =>
    intro y u v hx hy h
    cases y with
    | nil =>
      simp only [List.cons_append, List.nil_append, List.cons.injEq] at h
      exact absurd (by rw [h.1]; exact List.mem_cons_self '_' xs) hx
    | cons b ys =>
      simp only [List.cons_append, List.cons.injEq] at h
      obtain ⟨hab, hrest⟩ := h
      have hx' : '_' ∉ xs := fun hm => hx (List.mem_cons_of_mem a hm)
      have hy' : '_' ∉ ys := fun hm => hy (List.mem_cons_of_mem b hm)
      obtain ⟨h1, h2⟩ := ih ys u v hx' hy' hrest
      exact ⟨by rw [hab, h1], h2⟩

/-- Concrete lead whose whatsapp number itself contains an
underscore, used to separate the natural-key string from the
underlying field pair. -/
def hashCollideA : Lead :=
  { id := some "a", created_time := "3", platform := "", name := "",
    whatsapp_number_ := "1_2", lead_status := "New Lead", comments := "" }

/-- Companion lead to `hashCollideA`: a different field pair that
renders to the same natural-key string. -/
def hashCollideB : Lead :=
  { id := some "b", created_time := "2_3", platform := "", name := "",
    whatsapp_number_ := "1", lead_status := "New Lead", comments := "" }

/-- C2 counterexample: two leads whose `(whatsapp_number_,
created_time)` pairs differ but whose natural keys coincide, so key
equality does not identify leads only when both components match. -/
theorem generateLeadHash_not_exact :
    generateLeadHash hashCollideA = generateLeadHash hashCollideB
    ∧ (hashCollideA.whatsapp_number_, hashCollideA.created_time)
        ≠ (hashCollideB.whatsapp_number_, hashCollideB.created_time) := by
  constructor
  · rfl
  · decide

/-- C2 (amended): equal field pairs always yield equal natural keys,
and conversely equal natural keys force equal field pairs whenever
neither lead's `whatsapp_number_` contains an underscore character. -/
theorem generateLeadHash_exactness (a b : Lead) :
    ((a.whatsapp_number_, a.created_time) = (b.whatsapp_number_, b.created_time) →
      generateLeadHash a = generateLeadHash b)
    ∧ ('_' ∉ a.whatsapp_number_.data → '_' ∉ b.whatsapp_number_.data →
        (generateLeadHash a = generateLeadHash b ↔
          (a.whatsapp_number_, a.created_time) = (b.whatsapp_number_, b.created_time))) := by
  constructor
  · intro h
    obtain ⟨h1, h2⟩ := (Prod.mk.injEq _ _ _ _).mp h
    unfold generateLeadHash
    rw [h1, h2]
  · intro ha hb
    constructor
    · intro h
      have hdata : a.whatsapp_number_.data ++ '_' :: a.created_time.data
          = b.whatsapp_number_.data ++ '_' :: b.created_time.data := by
        have := congrArg String.data h
        simpa [generateLeadHash] using this
      obtain ⟨h1, h2⟩ := underscore_split_inj _ _ _ _ ha hb hdata
      rw [Prod.mk.injEq]
      exact ⟨String.ext h1, String.ext h2⟩
    · intro h
      obtain ⟨h1, h2⟩ := (Prod.mk.injEq _ _ _ _).mp h
      unfold generateLeadHash
      rw [h1, h2]

/-- C5: sync idempotence.  Re-running the sync against an unchanged
feed creates no lead on the second run, and leaves the store exactly
as it was after the first run. -/
theorem syncLeadsFromSheets_idempotent (S I : List Lead) :
    (syncLeadsFromSheets (syncLeadsFromSheets S I).store I).created = []
    ∧ (syncLeadsFromSheets (syncLeadsFromSheets S I).store I).store
        = (syncLeadsFromSheets S I).store := by
  have hempty : (syncLeadsFromSheets (syncLeadsFromSheets S I).store I).created = [] :=
    newSheetLeads_eq_nil_of_covered _ I (newSheetLeads_mem_store_map S I)
  refine ⟨hempty, ?_⟩
  have hsplit : (syncLeadsFromSheets (syncLeadsFromSheets S I).store I).store
      = (syncLeadsFromSheets S I).store
        ++ (syncLeadsFromSheets (syncLeadsFromSheets S I).store I).created := rfl
  rw [hsplit, hempty, List.append_nil]

/-- Embeds the `matchesSearch` disjunction of the `filteredLeads`
computation in the leads-table component: case-insensitive substring
match on `name` and `comments`, but a plain (case-sensitive)
`includes` on `whatsapp_number_`. -/
def matchesSearch (lead : Lead) (searchTerm : String) : Bool :=
  strIncludes (toLowerStr lead.name) (toLowerStr searchTerm)
  || strIncludes lead.whatsapp_number_ searchTerm
  || strIncludes (toLowerStr lead.comments) (toLowerStr searchTerm)

/-- Embeds `filteredLeads` of the leads-table component: a lead is
kept when it matches the search term and the status filter (exact
match unless `"all"`) and the platform filter (exact match unless
`"all"`). -/
def filteredLeads (leads : List Lead)
    (searchTerm statusFilter platformFilter : String) : List Lead :=
  leads.filter (fun lead =>
    matchesSearch lead searchTerm
    && (decide (statusFilter = "all") || decide (lead.lead_status = statusFilter))
    && (decide (platformFilter = "all") || decide (lead.platform = platformFilter)))

/-- The filter-membership condition exactly as the specification
states it: status filter passes, platform filter passes, and the
search term is a case-insensitive substring of the name, the
whatsapp number, or the comments. -/
def claimFilterMatch (lead : Lead)
    (searchTerm statusFilter platformFilter : String) : Prop :=
  (statusFilter = "all" ∨ lead.lead_status = statusFilter)
  ∧ (platformFilter = "all" ∨ lead.platform = platformFilter)
  ∧ (strIncludes (toLowerStr lead.name) (toLowerStr searchTerm) = true
     ∨ strIncludes (toLowerStr lead.whatsapp_number_) (toLowerStr searchTerm) = true
     ∨ strIncludes (toLowerStr lead.comments) (toLowerStr searchTerm) = true)

/-- The corrected filter-membership condition: as `claimFilterMatch`,
except that the whatsapp-number clause is a case-sensitive substring
match, as the component actually computes it. -/
def amendedFilterMatch (lead : Lead)
    (searchTerm statusFilter platformFilter : String) : Prop :=
  (statusFilter = "all" ∨ lead.lead_status = statusFilter)
  ∧ (platformFilter = "all" ∨ lead.platform = platformFilter)
  ∧ (strIncludes (toLowerStr lead.name) (toLowerStr searchTerm) = true
     ∨ strIncludes lead.whatsapp_number_ searchTerm = true
     ∨ strIncludes (toLowerStr lead.comments) (toLowerStr searchTerm) = true)

instance (lead : Lead) (searchTerm statusFilter platformFilter : String) :
    Decidable (claimFilterMatch lead searchTerm statusFilter platformFilter) := by
  unfold claimFilterMatch
  infer_instance

instance (lead : Lead) (searchTerm statusFilter platformFilter : String) :
    Decidable (amendedFilterMatch lead searchTerm statusFilter platformFilter) := by
  unfold amendedFilterMatch
  infer_instance

/-- Concrete lead separating the claimed (case-insensitive) search
rule from the implemented one: the search term matches its whatsapp
number only up to case. -/
def searchCaseLead : Lead :=
  { id := some "1", created_time := "t", platform := "fb", name := "",
    whatsapp_number_ := "A", lead_status := "New Lead", comments := "" }

/-- C6 counterexample: a lead that satisfies the claimed
case-insensitive membership condition yet is absent from the filtered
view, because the component matches `whatsapp_number_`
case-sensitively. -/
theorem filteredLeads_not_case_insensitive_on_number :
    claimFilterMatch searchCaseLead "a" "all" "all"
    ∧ searchCaseLead ∉ filteredLeads [searchCaseLead] "a" "all" "all" := by
  decide

/-- C6 (amended): a lead of the list appears in the filtered view iff
the status filter is `"all"` or equals its status exactly, the
platform filter is `"all"` or equals its platform exactly, and the
search term occurs as a case-insensitive substring of its name or
comments, or as a case-sensitive substring of its whatsapp number. -/
theorem filteredLeads_mem_iff (leads : List Lead)
    (searchTerm statusFilter platformFilter : String) (lead : Lead)
    (h : lead ∈ leads) :
    lead ∈ filteredLeads leads searchTerm statusFilter platformFilter
      ↔ amendedFilterMatch lead searchTerm statusFilter platformFilter := by
  unfold filteredLeads amendedFilterMatch matchesSearch
  simp only [List.mem_filter, h, true_and, Bool.and_eq_true, Bool.or_eq_true,
    decide_eq_true_eq]
  tauto

/-- C6 witness: the amended membership rule evaluated at a concrete
lead and one-element list. -/
theorem filteredLeads_mem_iff_witness :
    searchCaseLead ∈ filteredLeads [searchCaseLead] "A" "all" "all"
      ↔ amendedFilterMatch searchCaseLead "A" "all" "all" :=
  filteredLeads_mem_iff [searchCaseLead] "A" "all" "all" searchCaseLead
    (by decide)

/-- A KPI card datum as built by `computeKPIs` in `Dashboard.tsx`
(the icon is recorded by the name of the rendered icon component). -/
structure KPI where
  title : String
  value : Nat
  icon : String
  color : String
deriving DecidableEq, Repr

/-- Embeds `computeKPIs` of `Dashboard.tsx`: three cards, counting
all leads, the leads whose status is exactly `"Meeting Done"`, and
the leads whose status is exactly `"Deal done"`. -/
def computeKPIs (list : List Lead) : List KPI :=
  [ { title := "Total Leads", value := list.length,
      icon := "Users", color := "blue" },
    { title := "Meeting Done",
      value := (list.filter (fun l => decide (l.lead_status = "Meeting Done"))).length,
      icon := "Check", color := "orange" },
    { title := "Deal Done",
      value := (list.filter (fun l => decide (l.lead_status = "Deal done"))).length,
      icon := "Award", color := "green" } ]

/-- C7: KPI correctness.  On every lead list the "Meeting Done" card
carries the number of leads with status exactly `"Meeting Done"`, the
"Deal Done" card the number of leads with status exactly
`"Deal done"` (case-sensitive), and the "Total Leads" card the length
of the list. -/
theorem computeKPIs_counts (list : List Lead) :
    ((computeKPIs list).find? (fun k => decide (k.title = "Meeting Done"))).map KPI.value
      = some (list.countP (fun l => decide (l.lead_status = "Meeting Done")))
    ∧ ((computeKPIs list).find? (fun k => decide (k.title = "Deal Done"))).map KPI.value
      = some (list.countP (fun l => decide (l.lead_status = "Deal done")))
    ∧ ((computeKPIs list).find? (fun k => decide (k.title = "Total Leads"))).map KPI.value
      = some list.length := by
  refine ⟨?_, ?_, ?_⟩ <;>
    simp [computeKPIs, List.find?, List.countP_eq_length_filter]

/-- The fixed page size of the leads table (`itemsPerPage = 20`). -/
def itemsPerPage : Nat := 20

/-- Embeds `totalPages` of the leads-table component:
`Math.ceil(filteredLeads.length / itemsPerPage)`. -/
def totalPages (filtered : List Lead) : Nat :=
  (filtered.length + itemsPerPage - 1) / itemsPerPage

/-- Embeds `paginatedLeads` of the leads-table component:
`filtered.slice((currentPage - 1) * itemsPerPage, currentPage * itemsPerPage)`. -/
def paginatedLeads (filtered : List Lead) (currentPage : Nat) : List Lead :=
  (filtered.drop ((currentPage - 1) * itemsPerPage)).take itemsPerPage

theorem paginatedLeads_join_take (filtered : List Lead) (k : Nat) :
    ((List.range k).map (fun i => paginatedLeads filtered (i + 1))).flatten
      = filtered.take (k * itemsPerPage) := by
  induction k with
  | zero => simp
  | succ n ih =>
    rw [List.range_succ, List.map_append, List.flatten_append]
    simp only [List.map_cons, List.map_nil, List.flatten_cons, List.flatten_nil,
      List.append_nil]
    rw [ih]
    unfold paginatedLeads
    simp only [Nat.add_sub_cancel]
    rw [← List.take_add]
    congr 1
    ring

/-- C8: pagination arithmetic.  The page count is the ceiling of
length over 20; every page strictly before the last holds exactly 20
leads; the last page holds the remaining `L - 20 * (pages - 1)`
leads; and the pages concatenated in order reproduce the
filtered-and-sorted list. -/
theorem paginatedLeads_partition (filtered : List Lead) :
    totalPages filtered
      = filtered.length / 20 + (if filtered.length % 20 = 0 then 0 else 1)
    ∧ (∀ p : Nat, 1 ≤ p → p < totalPages filtered →
        (paginatedLeads filtered p).length = 20)
    ∧ (1 ≤ totalPages filtered →
        (paginatedLeads filtered (totalPages filtered)).length
          = filtered.length - 20 * (totalPages filtered - 1))
    ∧ ((List.range (totalPages filtered)).map
        (fun i => paginatedLeads filtered (i + 1))).flatten = filtered := by
  refine ⟨?_, ?_, ?_, ?_⟩
  · unfold totalPages itemsPerPage
    by_cases h : filtered.length % 20 = 0 <;> simp only [h, if_true, if_false] <;> omega
  · intro p h1 h2
    unfold totalPages itemsPerPage at h2
    unfold paginatedLeads itemsPerPage
    simp only [List.length_take, List.length_drop]
    omega
  · intro h1
    unfold totalPages itemsPerPage at h1 ⊢
    unfold paginatedLeads itemsPerPage
    simp only [List.length_take, List.length_drop]
    omega
  · rw [paginatedLeads_join_take]
    apply List.take_of_length_le
    unfold totalPages itemsPerPage
    omega

/-- A stock lead used to build concrete witnesses. -/
def stockLead : Lead :=
  { id := some "w0", created_time := "2024-01-01T00:00:00Z", platform := "fb",
    name := "Jane", whatsapp_number_ := "919876543210",
    lead_status := "New Lead", comments := "hello" }

/-- Twenty-one identical leads: enough for two pages. -/
def manyLeads : List Lead := List.replicate 21 stockLead

/-- C8 witness: the pagination facts evaluated on a concrete
21-element list (two pages of sizes 20 and 1). -/
theorem paginatedLeads_partition_witness :
    (paginatedLeads manyLeads 1).length = 20
    ∧ (paginatedLeads manyLeads (totalPages manyLeads)).length
        = manyLeads.length - 20 * (totalPages manyLeads - 1) :=
  ⟨(paginatedLeads_partition manyLeads).2.1 1 (by decide) (by decide),
   (paginatedLeads_partition manyLeads).2.2.1 (by decide)⟩

/-- Embeds `handleStatusUpdate` of `Dashboard.tsx`: map over the lead
list, replacing the status of the lead whose id matches. -/
def handleStatusUpdate (leads : List Lead) (leadId newStatus : String) : List Lead :=
  leads.map (fun lead =>
    if lead.id = some leadId then { lead with lead_status := newStatus } else lead)

/-- Embeds `handleFollowUpScheduled` of `Dashboard.tsx`: map over the
lead list, replacing the follow-up date and time of the lead whose id
matches. -/
def handleFollowUpScheduled (leads : List Lead) (leadId date time : String) : List Lead :=
  leads.map (fun lead =>
    if lead.id = some leadId then
      { lead with followUpDate := some date, followUpTime := some time }
    else lead)

/-- Embeds `handleUpdateCustomerComment` of `Dashboard.tsx`: map over
the lead list, replacing the customer comment of the lead whose id
matches. -/
def handleUpdateCustomerComment (leads : List Lead) (leadId comment : String) : List Lead :=
  leads.map (fun lead =>
    if lead.id = some leadId then { lead with customerComment := some comment } else lead)

/-- C10: per-lead update frame property.  Each of the three handlers
preserves the length and order of the list; at every position whose
lead has an id different from the target the lead is untouched, and
at every position whose lead has the target id only the targeted
fields change (record-update of exactly those fields). -/
theorem handlers_frame (leads : List Lead) (X s d t c : String) :
    (handleStatusUpdate leads X s).length = leads.length
    ∧ (handleFollowUpScheduled leads X d t).length = leads.length
    ∧ (handleUpdateCustomerComment leads X c).length = leads.length
    ∧ ∀ i : Nat, ∀ lead : Lead, leads[i]? = some lead →
        (lead.id ≠ some X →
          (handleStatusUpdate leads X s)[i]? = some lead
          ∧ (handleFollowUpScheduled leads X d t)[i]? = some lead
          ∧ (handleUpdateCustomerComment leads X c)[i]? = some lead)
        ∧ (lead.id = some X →
          (handleStatusUpdate leads X s)[i]? = some { lead with lead_status := s }
          ∧ (handleFollowUpScheduled leads X d t)[i]?
              = some { lead with followUpDate := some d, followUpTime := some t }
          ∧ (handleUpdateCustomerComment leads X c)[i]?
              = some { lead with customerComment := some c }) := by
  refine ⟨by simp [handleStatusUpdate], by simp [handleFollowUpScheduled],
    by simp [handleUpdateCustomerComment], ?_⟩
  intro i lead hget
  constructor
  · intro hne
    refine ⟨?_, ?_, ?_⟩ <;>
      simp [handleStatusUpdate, handleFollowUpScheduled,
        handleUpdateCustomerComment, List.getElem?_map, hget, hne]
  · intro heq
    refine ⟨?_, ?_, ?_⟩ <;>
      simp [handleStatusUpdate, handleFollowUpScheduled,
        handleUpdateCustomerComment, List.getElem?_map, hget, heq]

/-- A second stock lead carrying a different id than `stockLead`. -/
def otherLead : Lead :=
  { id := some "w1", created_time := "2024-02-02T00:00:00Z", platform := "ig",
    name := "Bob", whatsapp_number_ := "911111111111",
    lead_status := "Meeting Done", comments := "hi" }

/-- C10 witness: the frame property evaluated on a concrete two-lead
list, updating the first lead and leaving the second untouched. -/
theorem handlers_frame_witness :
    (handleStatusUpdate [stockLead, otherLead] "w0" "Deal done")[0]?
      = some { stockLead with lead_status := "Deal done" }
    ∧ (handleStatusUpdate [stockLead, otherLead] "w0" "Deal done")[1]?
      = some otherLead :=
  ⟨((handlers_frame [stockLead, otherLead] "w0" "Deal done" "2024-03-03" "10:00"
      "note").2.2.2 0 stockLead (by decide)).2 (by decide) |>.1,
   ((handlers_frame [stockLead, otherLead] "w0" "Deal done" "2024-03-03" "10:00"
      "note").2.2.2 1 otherLead (by decide)).1 (by decide) |>.1⟩

/-- Split a character list at every occurrence of the separator. -/
def splitOnChar (sep : Char) : List Char → List (List Char)
  | [] => [[]]
  | c :: cs =>
    if c = sep then [] :: splitOnChar sep cs
    else
      match splitOnChar sep cs with
      | [] => [[c]]
      | x :: xs => (c :: x) :: xs

/-- ASCII whitespace test used by header trimming. -/
def isSpaceChar (c : Char) : Bool :=
  c = ' ' || c = '\t' || c = '\r' || c = '\n'

/-- Strip leading and trailing whitespace from a character list. -/
def trimChars (l : List Char) : List Char :=
  ((l.dropWhile isSpaceChar).reverse.dropWhile isSpaceChar).reverse

/-- Strip leading and trailing whitespace from a string, as
`header.trim()` does. -/
def trimStr (s : String) : String :=
  String.mk (trimChars s.data)

/-- The shape of a PapaParse result used by `parseCSV`: the parsed
records (each a header-keyed field list) and the row-level errors. -/
structure PapaResult where
  data : List (List (String × String))
  errors : List String
deriving DecidableEq, Repr

/-- Modelled from the spec: the `Papa.parse(csvText, { header: true,
skipEmptyLines: true, transformHeader: (h) => h.trim() })` call inside
`parseCSV` is third-party library code that is not part of this
repository.  Following the spec's CSV contract: the input is split
into lines, empty lines are skipped, the first line is the header row
(each column name trimmed), every later line becomes one record
keying trimmed header names to that row's comma-separated fields, and
a row whose field count differs from the header's is reported as a
row-level error. -/
def papaParse (csvText : String) : PapaResult :=
  match (splitOnChar '\n' csvText.data).filter (fun l => !l.isEmpty) with
  | [] => { data := [], errors := [] }
  | headerLine :: rowLines =>
    let headers := (splitOnChar ',' headerLine).map (fun f => trimStr (String.mk f))
    let rows := rowLines.map (fun l => (splitOnChar ',' l).map String.mk)
    { data := rows.map (fun fields => headers.zip fields)
      errors := (rows.filter (fun fields =>
        decide (fields.length ≠ headers.length))).map (fun _ => "FieldMismatch") }

/-- JavaScript `row.key || dflt`: the looked-up field when present
and non-empty, the default otherwise. -/
def getField (row : List (String × String)) (key dflt : String) : String :=
  match row.lookup key with
  | some v => if v = "" then dflt else v
  | none => dflt

/-- The decimal digit characters. -/
def decDigitChar : Nat → Char
  | 0 => '0' | 1 => '1' | 2 => '2' | 3 => '3' | 4 => '4'
  | 5 => '5' | 6 => '6' | 7 => '7' | 8 => '8' | _ => '9'

/-- Decimal rendering of a natural number, as JavaScript renders a
number inside a template string. -/
def natToDecimal (n : Nat) : List Char :=
  if _h : n < 10 then [decDigitChar n]
  else natToDecimal (n / 10) ++ [decDigitChar (n % 10)]
decreasing_by exact Nat.div_lt_self (by omega) (by omega)

/-- Decimal rendering as a string. -/
def natToDecimalStr (n : Nat) : String :=
  String.mk (natToDecimal n)

/-- The numeric value a decimal digit string denotes; inverse of
`natToDecimal`. -/
def decimalVal (l : List Char) : Nat :=
  l.foldl (fun acc c => acc * 10 + (c.toNat - 48)) 0

theorem decDigitChar_toNat (d : Nat) (h : d < 10) :
    (decDigitChar d).toNat = 48 + d := by
  interval_cases d <;> rfl

theorem decimalVal_natToDecimal (n : Nat) : decimalVal (natToDecimal n) = n := by
  induction n using natToDecimal.induct with
  | case1 n h =>
    rw [natToDecimal, dif_pos h]
    simp [decimalVal, decDigitChar_toNat n h]
  | case2 n h ih =>
    rw [natToDecimal, dif_neg h]
    unfold decimalVal at ih ⊢
    rw [List.foldl_append, ih]
    simp only [List.foldl_cons, List.foldl_nil]
    rw [decDigitChar_toNat (n % 10) (Nat.mod_lt n (by omega))]
    omega

theorem natToDecimal_inj (a b : Nat) (h : natToDecimal a = natToDecimal b) : a = b := by
  rw [← decimalVal_natToDecimal a, ← decimalVal_natToDecimal b, h]

/-- The lead value `parseCSV` builds from one parsed CSV row at a
given batch index (`nowIso` stands for `new Date().toISOString()`,
`nowMs` for `Date.now()`). -/
def leadOfRow (nowIso : String) (nowMs : Nat) (index : Nat)
    (row : List (String × String)) : Lead :=
  { id := some ("imported-" ++ natToDecimalStr nowMs ++ "-" ++ natToDecimalStr index)
    created_time := getField row "created_time" nowIso
    platform := getField row "platform" ""
    name := getField row "name" ""
    whatsapp_number_ := getField row "whatsapp_number_" ""
    lead_status := getField row "lead_status" "New Lead"
    comments := getField row "comments" "" }

/-- Index-aware list map, as `results.data.map((row, index) => ...)`. -/
def mapWithIndex (f : Nat → α → β) : Nat → List α → List β
  | _, [] => []
  | i, a :: as => f i a :: mapWithIndex f (i + 1) as

theorem mapWithIndex_length (f : Nat → α → β) :
    ∀ (i : Nat) (l : List α), (mapWithIndex f i l).length = l.length := by
  intro i l
  induction l generalizing i with
  | nil => rfl
  | cons a as ih => simp [mapWithIndex, ih]

theorem mapWithIndex_getElem? (f : Nat → α → β) :
    ∀ (i j : Nat) (l : List α), (mapWithIndex f i l)[j]? = l[j]?.map (f (i + j)) := by
  intro i j l
  induction l generalizing i j with
  | nil => simp [mapWithIndex]
  | cons a as ih =>
    cases j with
    | zero => simp [mapWithIndex]
    | succ j' =>
      have hidx : i + 1 + j' = i + (j' + 1) := by omega
      simp only [mapWithIndex, List.getElem?_cons_succ, ih (i + 1) j', hidx]

/-- Embeds `parseCSV` of `Dashboard.tsx`: run the CSV parser; when it
reports any error, throw `new Error("Invalid CSV format")`; otherwise
map every record to a lead with a batch-local temporary id and the
documented per-field defaults. -/
def parseCSV (nowIso : String) (nowMs : Nat) (csvText : String) :
    Except String (List Lead) :=
  if (papaParse csvText).errors.length > 0 then
    .error "Invalid CSV format"
  else
    .ok (mapWithIndex (leadOfRow nowIso nowMs) 0 (papaParse csvText).data)

/-- The spec's defaulting rule for one CSV column: the produced field
equals the row's value when the column is present and non-empty, and
the given default when it is missing or empty. -/
def fieldOrDefault (row : List (String × String)) (key dflt v : String) : Prop :=
  ((row.lookup key = none ∨ row.lookup key = some "") ∧ v = dflt)
  ∨ (∃ w, row.lookup key = some w ∧ w ≠ "" ∧ v = w)

theorem getField_spec (row : List (String × String)) (key dflt : String) :
    fieldOrDefault row key dflt (getField row key dflt) := by
  unfold fieldOrDefault getField
  rcases hl : row.lookup key with _ | w
  · simp
  · by_cases hw : w = ""
    · subst hw
      simp
    · right
      exact ⟨w, rfl, hw, by simp [hw]⟩

theorem leadOfRow_id_inj (nowIso : String) (nowMs i j : Nat)
    (row1 row2 : List (String × String))
    (h : (leadOfRow nowIso nowMs i row1).id = (leadOfRow nowIso nowMs j row2).id) :
    i = j := by
  simp only [leadOfRow, Option.some.injEq] at h
  have hd := congrArg String.data h
  simp only [String.data_append, natToDecimalStr, List.append_assoc,
    List.append_cancel_left_eq] at hd
  exact natToDecimal_inj i j hd

/-- C3: CSV parse shape and defaults.  When the parser reports no
error, `parseCSV` succeeds with exactly one lead per parsed data row;
the temporary ids are pairwise distinct within the batch; and each
lead's six canonical fields obey the defaulting rules
(`created_time` falls back to the current timestamp, `lead_status`
to `"New Lead"`, and `platform`, `name`, `whatsapp_number_`,
`comments` to the empty string). -/
theorem parseCSV_shape_defaults (nowIso : String) (nowMs : Nat) (csvText : String)
    (hok : (papaParse csvText).errors = []) :
    ∃ L : List Lead, parseCSV nowIso nowMs csvText = .ok L
      ∧ L.length = (papaParse csvText).data.length
      ∧ (∀ i j : Nat, ∀ li lj : Lead, L[i]? = some li → L[j]? = some lj →
          i ≠ j → li.id ≠ lj.id)
      ∧ (∀ i : Nat, ∀ row, (papaParse csvText).data[i]? = some row →
          ∃ lead : Lead, L[i]? = some lead
            ∧ lead.id = some ("imported-" ++ natToDecimalStr nowMs ++ "-"
                ++ natToDecimalStr i)
            ∧ fieldOrDefault row "created_time" nowIso lead.created_time
            ∧ fieldOrDefault row "platform" "" lead.platform
            ∧ fieldOrDefault row "name" "" lead.name
            ∧ fieldOrDefault row "whatsapp_number_" "" lead.whatsapp_number_
            ∧ fieldOrDefault row "lead_status" "New Lead" lead.lead_status
            ∧ fieldOrDefault row "comments" "" lead.comments) := by
  refine ⟨mapWithIndex (leadOfRow nowIso nowMs) 0 (papaParse csvText).data,
    ?_, mapWithIndex_length _ 0 _, ?_, ?_⟩
  · unfold parseCSV
    rw [hok]
    rfl
  · intro i j li lj hi hj hij
    rw [mapWithIndex_getElem?] at hi hj
    rcases hri : (papaParse csvText).data[i]? with _ | rowi
    · rw [hri] at hi
      simp at hi
    rcases hrj : (papaParse csvText).data[j]? with _ | rowj
    · rw [hrj] at hj
      simp at hj
    rw [hri] at hi
    rw [hrj] at hj
    simp only [Option.map_some', Option.some.injEq] at hi hj
    intro hid
    apply hij
    have hij' := leadOfRow_id_inj nowIso nowMs (0 + i) (0 + j) rowi rowj
      (by rw [hi, hj, hid])
    omega
  · intro i row hrow
    refine ⟨leadOfRow nowIso nowMs i row, ?_, rfl,
      getField_spec row "created_time" nowIso, getField_spec row "platform" "",
      getField_spec row "name" "", getField_spec row "whatsapp_number_" "",
      getField_spec row "lead_status" "New Lead", getField_spec row "comments" ""⟩
    rw [mapWithIndex_getElem?, hrow]
    simp

/-- The spec's one-row example CSV. -/
def sampleCsv : String :=
  "created_time,platform,name,whatsapp_number_,lead_status,comments\n2024-01-01T00:00:00Z,fb,Jane,919876543210,,Interested"

/-- C3 witness: the parse contract applied to the spec's example CSV
at a concrete clock. -/
theorem parseCSV_shape_defaults_witness :
    ∃ L : List Lead, parseCSV "2025-06-01T00:00:00Z" 1712345 sampleCsv = .ok L
      ∧ L.length = (papaParse sampleCsv).data.length
      ∧ (∀ i j : Nat, ∀ li lj : Lead, L[i]? = some li → L[j]? = some lj →
          i ≠ j → li.id ≠ lj.id)
      ∧ (∀ i : Nat, ∀ row, (papaParse sampleCsv).data[i]? = some row →
          ∃ lead : Lead, L[i]? = some lead
            ∧ lead.id = some ("imported-" ++ natToDecimalStr 1712345 ++ "-"
                ++ natToDecimalStr i)
            ∧ fieldOrDefault row "created_time" "2025-06-01T00:00:00Z" lead.created_time
            ∧ fieldOrDefault row "platform" "" lead.platform
            ∧ fieldOrDefault row "name" "" lead.name
            ∧ fieldOrDefault row "whatsapp_number_" "" lead.whatsapp_number_
            ∧ fieldOrDefault row "lead_status" "New Lead" lead.lead_status
            ∧ fieldOrDefault row "comments" "" lead.comments) :=
  parseCSV_shape_defaults "2025-06-01T00:00:00Z" 1712345 sampleCsv (by decide)

/-- C4: CSV atomic rejection.  Whenever the underlying parser
reports at least one row-level error, `parseCSV` fails with
`"Invalid CSV format"` and returns no records at all. -/
theorem parseCSV_rejects_on_error (nowIso : String) (nowMs : Nat) (csvText : String)
    (herr : (papaParse csvText).errors ≠ []) :
    parseCSV nowIso nowMs csvText = .error "Invalid CSV format" := by
  unfold parseCSV
  rcases h : (papaParse csvText).errors with _ | ⟨e, es⟩
  · exact absurd h herr
  · simp [h]

/-- A CSV whose single data row has one field too many. -/
def raggedCsv : String := "created_time,platform\n1,2,3"

/-- C4 witness: the ragged example is rejected whole. -/
theorem parseCSV_rejects_on_error_witness :
    parseCSV "2025-06-01T00:00:00Z" 1712345 raggedCsv = .error "Invalid CSV format" :=
  parseCSV_rejects_on_error "2025-06-01T00:00:00Z" 1712345 raggedCsv (by decide)

/-- The classes of thrown values the dashboard's load sequence
distinguishes in its catch block: an axios HTTP error carrying an
optional response status, any other JavaScript `Error` carrying a
message, or a thrown non-`Error` value. -/
inductive LoadErr where
  | axiosErr (status : Option Nat) (msg : String)
  | jsErr (msg : String)
  | nonErrorThrow
deriving DecidableEq, Repr

/-- The dashboard state the load sequence settles into: the rendered
lead list, the generic error banner and the soft warning banner. -/
structure DashState where
  leads : List Lead
  error : Option String
  warning : Option String
deriving DecidableEq, Repr

/-- Embeds the catch block of `load` in `Dashboard.tsx`:
`axios.isAxiosError(err) && err.response?.status === 500` sets the
warning "No leads available for your account"; any other `Error` sets
the generic error carrying the underlying message; a non-`Error`
throw sets the generic unknown-error message. -/
def catchLoadError (e : LoadErr) (leadsSoFar : List Lead) : DashState :=
  match e with
  | .axiosErr status m =>
    if status = some 500 then
      { leads := leadsSoFar, error := none,
        warning := some "No leads available for your account" }
    else
      { leads := leadsSoFar, error := some ("Failed to load leads: " ++ m),
        warning := none }
  | .jsErr m =>
    { leads := leadsSoFar, error := some ("Failed to load leads: " ++ m),
      warning := none }
  | .nonErrorThrow =>
    { leads := leadsSoFar,
      error := some "Failed to load leads due to an unknown error",
      warning := none }

/-- Embeds the `load` orchestration of `Dashboard.tsx`: read the
store and render it, sync, then re-read and render; a failure of any
step falls through to the single catch block, leaving the leads as
last rendered. -/
def load (step1 : Except LoadErr (List Lead)) (step2 : Except LoadErr Unit)
    (step3 : Except LoadErr (List Lead)) : DashState :=
  match step1 with
  | .error e => catchLoadError e []
  | .ok initial =>
    match step2 with
    | .error e => catchLoadError e initial
    | .ok _ =>
      match step3 with
      | .error e => catchLoadError e initial
      | .ok updated => { leads := updated, error := none, warning := none }

/-- The errors the spec calls "HTTP 500-equivalent": axios errors
whose response status is 500. -/
def is500 (e : LoadErr) : Prop :=
  ∃ m, e = .axiosErr (some 500) m

/-- The message carried by a thrown value, when there is one. -/
def errMessage : LoadErr → Option String
  | .axiosErr _ m => some m
  | .jsErr m => some m
  | .nonErrorThrow => none

theorem catchLoadError_classifies (e : LoadErr) (ls : List Lead) :
    (is500 e → (catchLoadError e ls).warning = some "No leads available for your account"
      ∧ (catchLoadError e ls).error = none)
    ∧ (¬ is500 e → (catchLoadError e ls).warning = none
        ∧ (∀ m, errMessage e = some m →
            (catchLoadError e ls).error = some ("Failed to load leads: " ++ m))
        ∧ (errMessage e = none →
            (catchLoadError e ls).error
              = some "Failed to load leads due to an unknown error")) := by
  rcases e with ⟨status, m⟩ | m | _
  · by_cases hst : status = some 500
    · subst hst
      constructor
      · intro _
        simp [catchLoadError]
      · intro hnot
        exact absurd ⟨m, rfl⟩ hnot
    · constructor
      · rintro ⟨m', hm'⟩
        rw [LoadErr.axiosErr.injEq] at hm'
        exact absurd hm'.1 hst
      · intro _
        refine ⟨by simp [catchLoadError, hst], ?_, ?_⟩
        · intro m' hm'
          simp only [errMessage, Option.some.injEq] at hm'
          subst hm'
          simp [catchLoadError, hst]
        · intro h
          simp [errMessage] at h
  · constructor
    · rintro ⟨m', hm'⟩
      cases hm'
    · intro _
      refine ⟨rfl, ?_, ?_⟩
      · intro m' hm'
        simp only [errMessage, Option.some.injEq] at hm'
        subst hm'
        rfl
      · intro h
        simp [errMessage] at h
  · constructor
    · rintro ⟨m', hm'⟩
      cases hm'
    · intro _
      refine ⟨rfl, ?_, fun _ => rfl⟩
      intro m' hm'
      simp [errMessage] at hm'

/-- C9: initial-load error classification.  Whichever of the three
load steps fails first (initial store read, sheet sync, or re-read),
the same catch-block rule applies: an HTTP 500-equivalent failure
puts the controller in the soft "No leads available for your account"
warning state with no hard error, while any other failure puts it in
the generic load-error state carrying the underlying message (or the
fixed unknown-error text when the thrown value has no message). -/
theorem load_error_classification (e : LoadErr) (l1 : List Lead)
    (s2 : Except LoadErr Unit) (s3 : Except LoadErr (List Lead)) :
    ∀ st ∈ [load (.error e) s2 s3, load (.ok l1) (.error e) s3,
        load (.ok l1) (.ok ()) (.error e)],
      (is500 e → st.warning = some "No leads available for your account"
        ∧ st.error = none)
      ∧ (¬ is500 e → st.warning = none
          ∧ (∀ m, errMessage e = some m →
              st.error = some ("Failed to load leads: " ++ m))
          ∧ (errMessage e = none →
              st.error = some "Failed to load leads due to an unknown error")) := by
  intro st hst
  simp only [List.mem_cons, List.not_mem_nil, or_false] at hst
  rcases hst with rfl | rfl | rfl
  · exact catchLoadError_classifies e []
  · exact catchLoadError_classifies e l1
  · exact catchLoadError_classifies e l1

/-- C9 witness: a 500-status axios failure of the very first step
lands in the warning state with no hard error. -/
theorem load_error_classification_witness :
    (load (.error (.axiosErr (some 500) "boom")) (.ok ()) (.ok [])).warning
      = some "No leads available for your account"
    ∧ (load (.error (.axiosErr (some 500) "boom")) (.ok ()) (.ok [])).error = none :=
  (load_error_classification (.axiosErr (some 500) "boom") [] (.ok ()) (.ok [])
    (load (.error (.axiosErr (some 500) "boom")) (.ok ()) (.ok []))
    (by simp)).1 ⟨"boom", rfl⟩

/-- C2 witness: the amended key-exactness rule applied to a concrete
lead whose whatsapp number is underscore-free. -/
theorem generateLeadHash_exactness_witness :
    generateLeadHash stockLead = generateLeadHash stockLead
    ∧ (generateLeadHash stockLead = generateLeadHash stockLead ↔
        (stockLead.whatsapp_number_, stockLead.created_time)
          = (stockLead.whatsapp_number_, stockLead.created_time)) :=
  ⟨(generateLeadHash_exactness stockLead stockLead).1 rfl,
   (generateLeadHash_exactness stockLead stockLead).2 (by decide) (by decide)⟩
